import Mathlib

/-!
Verification development for the padelspot backend core: the Doinsport
availability fetcher (`app/services/doinsport_scraper.py`), the per-alert
scan worker and scheduler (`app/workers/scraper_worker.py`), and the
alert-creation/update routes (`app/api/routes/alerts.py`).

The Python code is shallowly embedded: JSON values become the inductive
`JVal`, the fetcher's defensive parsing becomes total functions in an
`Except` monad (a `.error` models a raised Python exception, caught at the
top of `get_available_slots`), database sessions become explicit record
states threaded through pure functions, and `datetime` values become
integers (dates as day ordinals) and rationals (timestamps in minutes).
JSON numbers are modelled as integers, which covers every field the
upstream interface exposes (`pricePerParticipant`, `participantCount`,
`duration` are integer-valued).
-/

/-- A JSON-like Python value as produced by `response.json()`. -/
inductive JVal where
  | null : JVal
  | jbool : Bool → JVal
  | jint : Int → JVal
  | jstr : String → JVal
  | jarr : List JVal → JVal
  | jobj : List (String × JVal) → JVal

/-- Dictionary lookup, `d[k]` as an `Option` (first binding wins). -/
def jget : List (String × JVal) → String → Option JVal
  | [], _ => none
  | (k', v) :: rest, k => if k' = k then some v else jget rest k

/-- Python truthiness of `d.get(k)`: a missing key yields `None`, and
`None`, `False`, `0`, `""`, `[]`, `{}` are falsy. -/
def truthy : Option JVal → Bool
  | none => false
  | some .null => false
  | some (.jbool b) => b
  | some (.jint n) => !(n == 0)
  | some (.jstr s) => !(s == "")
  | some (.jarr xs) => !xs.isEmpty
  | some (.jobj fs) => !fs.isEmpty

/-- Numeric coercion as Python arithmetic sees a value: ints are numbers,
bools coerce to 0/1, anything else raises `TypeError`. -/
def asNum : JVal → Except Unit Int
  | .jint n => .ok n
  | .jbool b => .ok (if b then 1 else 0)
  | _ => .error ()

/-- Iteration, `for x in v`: lists iterate their elements, strings their characters,
dicts their keys; `None`, bools and ints raise `TypeError`. -/
def asIter : JVal → Except Unit (List JVal)
  | .jarr xs => .ok xs
  | .jstr s => .ok (s.toList.map fun c => .jstr (String.singleton c))
  | .jobj fs => .ok (fs.map fun kv => .jstr kv.1)
  | _ => .error ()

/-- Round-half-to-even on a rational, as Python's `round` ties-to-even. -/
def roundHalfEven (q : ℚ) : ℤ :=
  let f := ⌊q⌋
  let r := q - f
  if r < 1/2 then f else if 1/2 < r then f + 1 else if 2 ∣ f then f else f + 1

/-- Python's `round(q, 2)`. -/
def pyRound2 (q : ℚ) : ℚ := (roundHalfEven (q * 100) : ℚ) / 100

/-- The activity identifier constant `settings.PADEL_ACTIVITY_ID`. -/
def PADEL_ACTIVITY_ID : String := "ce8c306e-224a-4f24-aa9d-6500580924dc"

/-- One entry of the dict list built by `get_available_slots`. Fields not
known to be of a fixed type are kept as raw `JVal` values, exactly as the
Python dict stores whatever `playground.get(...)` returned. -/
structure ScrapedSlot where
  playground_id : JVal
  playground_name : JVal
  indoor : JVal
  surface : JVal
  start_time : JVal
  duration_minutes : Int
  price_total : ℚ
  price_per_person : ℚ
  participant_count : JVal
  date : String

/-- Surface name, `surface_data.get("name", "Unknown") if isinstance(surface_data, dict)
else str(surface_data)`; the `str(...)` branch keeps the value itself,
since only which branch ran is ever observable here. -/
def surfaceVal (pgf : List (String × JVal)) : JVal :=
  match (jget pgf "surface").getD (.jobj []) with
  | .jobj fs => (jget fs "name").getD (.jstr "Unknown")
  | v => v

/-- Sequentially run `f` over a list and concatenate the result lists; a
raised exception anywhere propagates (the Python loop's partial
`available_slots` is discarded by the caller's `except`). -/
def exceptJoin {α β : Type} (f : α → Except Unit (List β)) : List α → Except Unit (List β)
  | [] => .ok []
  | x :: rest =>
    match f x with
    | .error e => .error e
    | .ok l =>
      match exceptJoin f rest with
      | .error e => .error e
      | .ok ls => .ok (l ++ ls)

/-- The innermost loop body of `get_available_slots`: one price option.
A non-dict is skipped; an option whose `bookable` is falsy is skipped;
otherwise the slot dict is built (price per person = cents / 100, total =
per-person × participant count, duration minutes = seconds floor-div 60). -/
def processPrice (date : String) (pgf sf : List (String × JVal)) : JVal → Except Unit (List ScrapedSlot)
  | .jobj pf =>
    if truthy (jget pf "bookable") then
      match asNum ((jget pf "pricePerParticipant").getD (.jint 0)) with
      | .error e => .error e
      | .ok p =>
        match asNum ((jget pf "participantCount").getD (.jint 4)) with
        | .error e => .error e
        | .ok c =>
          match asNum ((jget pf "duration").getD (.jint 5400)) with
          | .error e => .error e
          | .ok d =>
            .ok [{ playground_id := (jget pgf "id").getD .null
                   playground_name := (jget pgf "name").getD (.jstr "Unknown")
                   indoor := (jget pgf "indoor").getD (.jbool false)
                   surface := surfaceVal pgf
                   start_time := (jget sf "startAt").getD (.jstr "00:00")
                   duration_minutes := Int.fdiv d 60
                   price_total := pyRound2 (((p : ℚ) / 100) * (c : ℚ))
                   price_per_person := pyRound2 ((p : ℚ) / 100)
                   participant_count := (jget pf "participantCount").getD (.jint 4)
                   date := date }]
    else .ok []
  | _ => .ok []

/-- One slot record: a non-dict is skipped, otherwise its `prices` are
iterated. -/
def processSlot (date : String) (pgf : List (String × JVal)) : JVal → Except Unit (List ScrapedSlot)
  | .jobj sf =>
    match asIter ((jget sf "prices").getD (.jarr [])) with
    | .error e => .error e
    | .ok prices => exceptJoin (processPrice date pgf sf) prices
  | _ => .ok []

/-- One activity record: skipped unless it is a dict whose `id` equals the
padel activity identifier. -/
def processActivity (date : String) (pgf : List (String × JVal)) : JVal → Except Unit (List ScrapedSlot)
  | .jobj af =>
    match jget af "id" with
    | some (.jstr s) =>
      if s = PADEL_ACTIVITY_ID then
        match asIter ((jget af "slots").getD (.jarr [])) with
        | .error e => .error e
        | .ok slots => exceptJoin (processSlot date pgf) slots
      else .ok []
    | _ => .ok []
  | _ => .ok []

/-- One court ("playground") record: a non-dict is skipped; the tri-state
indoor filter (`indoor_only` True keeps only truthy-`indoor` courts, False
keeps only falsy ones, `None` passes everything). -/
def processPlayground (date : String) (indoor_only : Option Bool) : JVal → Except Unit (List ScrapedSlot)
  | .jobj pgf =>
    if indoor_only = some true ∧ truthy (jget pgf "indoor") = false then .ok []
    else if indoor_only = some false ∧ truthy (jget pgf "indoor") = true then .ok []
    else
      match asIter ((jget pgf "activities").getD (.jarr [])) with
      | .error e => .error e
      | .ok acts => exceptJoin (processActivity date pgf) acts
  | _ => .ok []

/-- The parsing body of `get_available_slots` applied to the decoded JSON:
a non-dict body returns `[]` directly; otherwise `hydra:member` is
iterated. -/
def parsePlannings (date : String) (indoor_only : Option Bool) : JVal → Except Unit (List ScrapedSlot)
  | .jobj df =>
    match asIter ((jget df "hydra:member").getD (.jarr [])) with
    | .error e => .error e
    | .ok members => exceptJoin (processPlayground date indoor_only) members
  | _ => .ok []

/-- Outcome of the upstream HTTP exchange, as seen at the `try` boundary:
`httpError` covers timeouts, connection failures and the 4xx/5xx statuses
raised by `raise_for_status`; `badJson` a body `response.json()` rejects;
`ok` a decoded JSON body. -/
inductive FetchOutcome where
  | httpError : FetchOutcome
  | badJson : FetchOutcome
  | ok : JVal → FetchOutcome

/-- The fetcher `DoinsportScraper.get_available_slots`: every raised exception is
caught (`except httpx.HTTPError` / `except Exception`) and mapped to the
empty list, so the function is total and never raises to its caller. -/
def get_available_slots (date : String) (indoor_only : Option Bool) : FetchOutcome → List ScrapedSlot
  | .httpError => []
  | .badJson => []
  | .ok body =>
    match parsePlannings date indoor_only body with
    | .error _ => []
    | .ok slots => slots

/-- An upstream failure for one fetch: an HTTP-level error, an
undecodable body, a decoded body that is not a JSON object, or a body
whose parsing raises (unexpected field types). -/
def upstreamFailure (date : String) (indoor_only : Option Bool) : FetchOutcome → Bool
  | .httpError => true
  | .badJson => true
  | .ok body =>
    match body, parsePlannings date indoor_only body with
    | .jobj _, .ok _ => false
    | .jobj _, .error _ => true
    | _, _ => true

/-!
Worker embedding (`app/workers/scraper_worker.py`). Database rows become
records; UUIDs become `Nat` identifiers; dates become day ordinals
(`Int`), times-of-day minutes (`Nat`), timestamps minutes on one axis
(`ℚ`). A `Candidate` is one scraper dict after the worker's
`strptime` conversions of its `date` and `start_time` fields.
-/

/-- A candidate slot as `process_alert` consumes it. -/
structure Candidate where
  playground_id : Nat
  playground_name : String
  date : Int
  start_time : Nat
  duration_minutes : Int
  price_total : ℚ
  indoor : Bool
deriving DecidableEq

/-- A `user_alerts` row. -/
structure Alert where
  id : Nat
  user_id : Nat
  club_id : Nat
  target_date : Int
  time_from : Nat
  time_to : Nat
  indoor_only : Option Bool
  is_active : Bool
  check_interval_minutes : Int
  baseline_scraped : Bool
  last_checked_at : Option ℚ
deriving DecidableEq

/-- A `clubs` row (the fields the worker reads). -/
structure Club where
  id : Nat
  doinsport_id : Nat
  name : String
deriving DecidableEq

/-- A `detected_slots` row. -/
structure DSlot where
  alert_id : Nat
  club_id : Nat
  playground_id : Nat
  playground_name : String
  date : Int
  start_time : Nat
  duration_minutes : Int
  price_total : ℚ
  indoor : Bool
  email_sent : Bool
  email_sent_at : Option ℚ
deriving DecidableEq

/-- The persistent store. -/
structure DB where
  alerts : List Alert
  clubs : List Club
  slots : List DSlot
deriving DecidableEq

/-- The argument tuple of the worker's single
`scraper.get_available_slots(...)` call: club's doinsport id, the alert's
target date, time window and indoor preference. -/
structure ScrapeReq where
  club_doinsport_id : Nat
  date : Int
  time_from : Nat
  time_to : Nat
  indoor_only : Option Bool
deriving DecidableEq

/-- Ambient effects of one scan: the clock, the Supabase user lookup
(whether `get_user_by_id` finds the user), the email send outcome, and
whether the session's `commit` succeeds for a given alert id. -/
structure WorkerEnv where
  today : Int
  now : ℚ
  userFound : Nat → Bool
  sendOk : Nat → String → Candidate → Bool
  commitOk : Nat → Bool

def scrapeArgs (club : Club) (a : Alert) : ScrapeReq :=
  ⟨club.doinsport_id, a.target_date, a.time_from, a.time_to, a.indoor_only⟩

/-- The deduplication key of a candidate: (court id, date, start time);
the alert id is matched separately, giving the (alert, court, date,
start-time) uniqueness tuple. -/
def ckey (c : Candidate) : Nat × Int × Nat := (c.playground_id, c.date, c.start_time)

/-- The worker's existence query: is a `DetectedSlot` with this alert id
and deduplication key already recorded? -/
def existsTuple (slots : List DSlot) (aid : Nat) (k : Nat × Int × Nat) : Bool :=
  slots.any fun d =>
    decide (d.alert_id = aid ∧ d.playground_id = k.1 ∧ d.date = k.2.1 ∧ d.start_time = k.2.2)

/-- The `DetectedSlot` row built for a new candidate.  In steady state
(`isBaseline = false`) the user is looked up and an email attempted; the
sent flag is set only when the user was found and the send succeeded.  In
baseline mode neither happens. -/
def mkDetected (env : WorkerEnv) (a : Alert) (club : Club) (isBaseline : Bool) (c : Candidate) : DSlot :=
  let sent := !isBaseline && (env.userFound a.user_id && env.sendOk a.user_id club.name c)
  { alert_id := a.id
    club_id := club.id
    playground_id := c.playground_id
    playground_name := c.playground_name
    date := c.date
    start_time := c.start_time
    duration_minutes := c.duration_minutes
    price_total := c.price_total
    indoor := c.indoor
    email_sent := sent
    email_sent_at := if sent then some env.now else none }

/-- Number of `send_slot_notification` calls made for one new candidate:
one, when past baseline and the user lookup succeeded; otherwise zero. -/
def attemptCount (env : WorkerEnv) (a : Alert) (isBaseline : Bool) : Nat :=
  if !isBaseline && env.userFound a.user_id then 1 else 0

/-- Result of the candidate loop of `process_alert`: the session's
`detected_slots` (existing ++ newly added), `new_slots_count`, and the
number of notification attempts. -/
structure ScanState where
  slots : List DSlot
  newCount : Nat
  attempts : Nat
deriving DecidableEq

/-- The candidate loop of `process_alert`: for each candidate, skip it if
its (alert, court, date, start-time) tuple is already present (the
session sees rows added earlier in the same loop), otherwise persist a
new `DetectedSlot` and, in steady state only, attempt a notification. -/
def detectLoop (env : WorkerEnv) (a : Alert) (club : Club) (isBaseline : Bool) :
    List Candidate → List DSlot → ScanState
  | [], acc => ⟨acc, 0, 0⟩
  | c :: rest, acc =>
    if existsTuple acc a.id (ckey c) then detectLoop env a club isBaseline rest acc
    else
      let st := detectLoop env a club isBaseline rest (acc ++ [mkDetected env a club isBaseline c])
      ⟨st.slots, st.newCount + 1, st.attempts + attemptCount env a isBaseline⟩

/-- An exception escaping `process_alert`: a failed `commit` (persistence
error), or `scalar_one()` finding no club row. -/
inductive WErr where
  | dbError : WErr
  | clubMissing : WErr
deriving DecidableEq

def findAlert (db : DB) (aid : Nat) : Option Alert :=
  db.alerts.find? fun a => a.id == aid

def findClub (db : DB) (cid : Nat) : Option Club :=
  db.clubs.find? fun c => c.id == cid

/-- Write an alert row back: every row with the same id takes the new
value (row identity is the id). -/
def setAlert (db : DB) (a : Alert) : DB :=
  { db with alerts := db.alerts.map fun x => if x.id == a.id then a else x }

/-- The worker body `process_alert`: load the alert (missing or inactive → return); a
past target date deactivates the alert; otherwise load the club, scrape
the alert's exact target date and window, run the candidate loop with
the baseline flag read before the scan, then mark the baseline as
established (first scan) and stamp `last_checked_at`, committing once at
the end.  A failed commit raises, leaving the database unchanged.
Returns the new database, `new_slots_count` and the notification-attempt
count. -/
def process_alert (env : WorkerEnv) (scrape : ScrapeReq → List Candidate) (db : DB)
    (alertId : Nat) : Except WErr (DB × Nat × Nat) :=
  match findAlert db alertId with
  | none => .ok (db, 0, 0)
  | some alert =>
    if !alert.is_active then .ok (db, 0, 0)
    else if alert.target_date < env.today then
      if env.commitOk alertId then .ok (setAlert db { alert with is_active := false }, 0, 0)
      else .error .dbError
    else
      match findClub db alert.club_id with
      | none => .error .clubMissing
      | some club =>
        let isBaseline := !alert.baseline_scraped
        let st := detectLoop env alert club isBaseline (scrape (scrapeArgs club alert)) db.slots
        let alert' := { alert with
          baseline_scraped := if isBaseline then true else alert.baseline_scraped
          last_checked_at := some env.now }
        if env.commitOk alertId then
          .ok ({ setAlert db alert' with slots := st.slots }, st.newCount, st.attempts)
        else .error .dbError

/-- Whether an alert is due: a null `last_checked_at` is due immediately;
otherwise the scheduler skips it exactly when the elapsed minutes are
less than its `check_interval_minutes`. -/
def isDue (now : ℚ) (a : Alert) : Bool :=
  match a.last_checked_at with
  | none => true
  | some t => !(decide (now - t < (a.check_interval_minutes : ℚ)))

/-- Outcome of one scheduler pass: final database, ids for which
`process_alert` was invoked (in order), and whether an exception escaped
to the pass-level `except` handler (aborting the rest of the pass). -/
structure PassResult where
  db : DB
  processed : List Nat
  aborted : Bool
deriving DecidableEq

/-- The per-pass loop body of `scheduler_loop`: iterate the snapshot of
active alerts in loaded order; skip the not-yet-due ones; process the due
ones sequentially.  An exception from `process_alert` propagates to the
pass-level handler: the remaining alerts of the pass are not reached. -/
def runPassAux (env : WorkerEnv) (scrape : ScrapeReq → List Candidate) :
    List Alert → DB → List Nat → PassResult
  | [], db, acc => ⟨db, acc.reverse, false⟩
  | a :: rest, db, acc =>
    if isDue env.now a then
      match process_alert env scrape db a.id with
      | .ok (db', _, _) => runPassAux env scrape rest db' (a.id :: acc)
      | .error _ => ⟨db, (a.id :: acc).reverse, true⟩
    else runPassAux env scrape rest db acc

/-- One pass of `scheduler_loop`: load all active alerts, then iterate. -/
def runPass (env : WorkerEnv) (scrape : ScrapeReq → List Candidate) (db : DB) : PassResult :=
  runPassAux env scrape (db.alerts.filter fun a => a.is_active) db []

/-!
API-route embedding (`app/api/routes/alerts.py`). The module-level
`PLAN_QUOTAS` dict local to that file is modelled as an association list
so that Python's `quota[key]` subscripting (which raises `KeyError` on a
missing key) is observable.
-/

/-- A value of a quota dict: an integer bound or the
`available_intervals` list. -/
inductive QV where
  | int : Int → QV
  | ints : List Int → QV
deriving DecidableEq

/-- The `"free"` tier dict of `PLAN_QUOTAS` in `alerts.py`. -/
def freeQuota : List (String × QV) :=
  [("max_alerts", .int 2), ("check_interval_minutes", .int 10),
   ("min_days_ahead", .int 1), ("max_days_ahead", .int 14),
   ("max_time_window_hours", .int 6), ("available_intervals", .ints [10])]

/-- The `"premium"` tier dict of `PLAN_QUOTAS` in `alerts.py`. -/
def premiumQuota : List (String × QV) :=
  [("max_alerts", .int 10), ("check_interval_minutes", .int 3),
   ("min_days_ahead", .int 1), ("max_days_ahead", .int 60),
   ("max_time_window_hours", .int 12), ("available_intervals", .ints [3])]

/-- The dict `PLAN_QUOTAS` as defined at the top of `alerts.py`. -/
def PLAN_QUOTAS : List (String × List (String × QV)) :=
  [("free", freeQuota), ("premium", premiumQuota)]

/-- An error response or exception escaping a route handler. -/
inductive ApiErr where
  | keyError : String → ApiErr
  | typeError : ApiErr
  | quotaReached : ApiErr
  | dateTooEarly : ApiErr
  | dateTooLate : ApiErr
  | windowTooWide : ApiErr
  | clubNotFound : ApiErr
  | alertNotFound : ApiErr
deriving DecidableEq

/-- Python `quota[k]` on a quota dict where an integer is expected: a
missing key raises `KeyError`. -/
def qget (q : List (String × QV)) (k : String) : Except ApiErr Int :=
  match List.lookup k q with
  | none => .error (.keyError k)
  | some (.int n) => .ok n
  | some (.ints _) => .error .typeError

/-- The body of an alert-creation request (times as minutes into the
day, mirroring the route's `hour * 60 + minute` arithmetic). -/
structure AlertCreateReq where
  club_id : Nat
  target_date : Int
  time_from : Nat
  time_to : Nat
  indoor_only : Option Bool
deriving DecidableEq

/-- The route `create_alert`: plan is the subscription's plan, or `"free"` when the
user has no subscription row; `PLAN_QUOTAS[plan]` is a subscript (KeyError
on unknown plans).  Quota, date-window and time-window checks follow in
source order; then the alert is built with
`check_interval_minutes = quota["check_interval"]` — subscripted with the
key exactly as written in the source (the dict's key is
`"check_interval_minutes"`). -/
def create_alert (today : Int) (subPlan : Option String) (activeAlerts : Nat)
    (clubExists : Bool) (req : AlertCreateReq) : Except ApiErr Alert :=
  let plan := subPlan.getD "free"
  match List.lookup plan PLAN_QUOTAS with
  | none => .error (.keyError plan)
  | some quota =>
    match qget quota "max_alerts" with
    | .error e => .error e
    | .ok maxAlerts =>
      if (activeAlerts : Int) ≥ maxAlerts then .error .quotaReached
      else
        match qget quota "min_days_ahead" with
        | .error e => .error e
        | .ok minDays =>
          match qget quota "max_days_ahead" with
          | .error e => .error e
          | .ok maxDays =>
            if req.target_date < today + minDays then .error .dateTooEarly
            else if req.target_date > today + maxDays then .error .dateTooLate
            else
              match qget quota "max_time_window_hours" with
              | .error e => .error e
              | .ok maxWindow =>
                if ((req.time_to : ℚ) - (req.time_from : ℚ)) / 60 > (maxWindow : ℚ) then
                  .error .windowTooWide
                else if !clubExists then .error .clubNotFound
                else
                  match qget quota "check_interval" with
                  | .error e => .error e
                  | .ok interval =>
                    .ok { id := 0
                          user_id := 0
                          club_id := req.club_id
                          target_date := req.target_date
                          time_from := req.time_from
                          time_to := req.time_to
                          indoor_only := req.indoor_only
                          is_active := true
                          check_interval_minutes := interval
                          baseline_scraped := false
                          last_checked_at := none }

/-- The body of a PATCH request; `none` means the field was unset
(pydantic `exclude_unset`). -/
structure AlertUpdate where
  target_date : Option Int
  time_from : Option Nat
  time_to : Option Nat
  indoor_only : Option (Option Bool)
  is_active : Option Bool
deriving DecidableEq

/-- Apply the provided fields of a PATCH body to an alert row; when
`target_date` is among them, `baseline_scraped` is forced to `False`. -/
def applyUpdate (a : Alert) (u : AlertUpdate) : Alert :=
  { a with
    target_date := u.target_date.getD a.target_date
    time_from := u.time_from.getD a.time_from
    time_to := u.time_to.getD a.time_to
    indoor_only := u.indoor_only.getD a.indoor_only
    is_active := u.is_active.getD a.is_active
    baseline_scraped := if u.target_date.isSome then false else a.baseline_scraped }

/-- The route's ownership lookup: the alert with this id belonging to
this user. -/
def find_user_alert (db : DB) (uid aid : Nat) : Option Alert :=
  db.alerts.find? fun a => a.id == aid && a.user_id == uid

/-- The route `update_alert`: 404 when the alert is missing or owned by someone
else, otherwise apply the update and commit. -/
def update_alert (db : DB) (uid aid : Nat) (u : AlertUpdate) : Except ApiErr DB :=
  match find_user_alert db uid aid with
  | none => .error .alertNotFound
  | some a => .ok (setAlert db (applyUpdate a u))

/-- A price option at its nesting place inside a decoded planning
response: the body is an object whose `hydra:member` iteration yields a
playground object `pgf`, one of whose padel activities contains a slot
object `sf`, one of whose `prices` entries is the option object `pf`. -/
def PriceOptionIn (body : JVal) (pgf sf pf : List (String × JVal)) : Prop :=
  ∃ df, body = .jobj df ∧
  ∃ members, asIter ((jget df "hydra:member").getD (.jarr [])) = .ok members ∧
  JVal.jobj pgf ∈ members ∧
  ∃ acts, asIter ((jget pgf "activities").getD (.jarr [])) = .ok acts ∧
  ∃ af, JVal.jobj af ∈ acts ∧ jget af "id" = some (.jstr PADEL_ACTIVITY_ID) ∧
  ∃ slots, asIter ((jget af "slots").getD (.jarr [])) = .ok slots ∧
  JVal.jobj sf ∈ slots ∧
  ∃ prices, asIter ((jget sf "prices").getD (.jarr [])) = .ok prices ∧
  JVal.jobj pf ∈ prices

/-!  Concrete instances used by the witness theorems.  -/

/-- A planning body with one playground, one padel activity, one slot and
one bookable price option (all other fields defaulted). -/
def wBody4 : JVal :=
  .jobj [("hydra:member", .jarr [.jobj [("activities", .jarr [.jobj
    [("id", .jstr PADEL_ACTIVITY_ID),
     ("slots", .jarr [.jobj [("prices", .jarr [.jobj [("bookable", .jbool true)]])]])]])]])]

/-- The slot the fetcher emits for `wBody4`. -/
def wSlot4 : ScrapedSlot :=
  { playground_id := .null
    playground_name := .jstr "Unknown"
    indoor := .jbool false
    surface := .jstr "Unknown"
    start_time := .jstr "00:00"
    duration_minutes := Int.fdiv 5400 60
    price_total := pyRound2 ((((0 : ℤ) : ℚ) / 100) * ((4 : ℤ) : ℚ))
    price_per_person := pyRound2 (((0 : ℤ) : ℚ) / 100)
    participant_count := .jint 4
    date := "2025-01-01" }

def w1Alert : Alert := ⟨1, 7, 5, 10, 1080, 1200, none, true, 10, false, none⟩

def w1Club : Club := ⟨5, 99, "Le Garden"⟩

def w1Db : DB := ⟨[w1Alert], [w1Club], []⟩

def w1Env : WorkerEnv := ⟨10, 50, fun _ => true, fun _ _ _ => true, fun _ => true⟩

def w1Scrape : ScrapeReq → List Candidate :=
  fun _ => [⟨11, "Court 1", 10, 1080, 90, 25, true⟩, ⟨12, "Court 2", 10, 1080, 90, 25, false⟩]

def w2Alert : Alert := ⟨1, 7, 5, 10, 1080, 1200, none, true, 10, false, none⟩

def w2Club : Club := ⟨5, 99, "Le Garden"⟩

def w2Db : DB := ⟨[w2Alert], [w2Club], []⟩

def w2Env1 : WorkerEnv := ⟨9, 100, fun _ => true, fun _ _ _ => true, fun _ => true⟩

def w2Env2 : WorkerEnv := ⟨9, 120, fun _ => true, fun _ _ _ => true, fun _ => true⟩

def w2C : Candidate := ⟨11, "Court 1", 10, 1080, 90, 25, true⟩

/-- Same deduplication tuple as `w2C`, different duration and price. -/
def w2Cmut : Candidate := ⟨11, "Court 1", 10, 1080, 120, 30, true⟩

def w2Scrape1 : ScrapeReq → List Candidate := fun _ => [w2C]

def w2Scrape2 : ScrapeReq → List Candidate := fun _ => [w2Cmut]

/-- The database state after the first scan of `w2Alert`. -/
def w2Db1 : DB :=
  ⟨[{ w2Alert with baseline_scraped := true, last_checked_at := some 100 }], [w2Club],
   [mkDetected w2Env1 w2Alert w2Club true w2C]⟩

def w5B1 : Alert := ⟨1, 7, 5, 10, 1080, 1200, none, true, 10, true, some 96⟩

def w5B2 : Alert := ⟨2, 7, 5, 10, 1080, 1200, none, true, 10, true, some 89⟩

def w5Db : DB := ⟨[w5B1, w5B2], [⟨5, 99, "Le Garden"⟩], []⟩

def w5Env : WorkerEnv := ⟨9, 100, fun _ => true, fun _ _ _ => true, fun _ => true⟩

def w5Scrape : ScrapeReq → List Candidate := fun _ => []

def c6A : Alert := ⟨1, 7, 5, 10, 1080, 1200, none, true, 10, true, none⟩

def c6B : Alert := ⟨2, 8, 5, 10, 1080, 1200, none, true, 10, true, none⟩

def c6Club : Club := ⟨5, 99, "Le Garden"⟩

def c6Db : DB := ⟨[c6A, c6B], [c6Club], []⟩

/-- The commit for alert 1 fails (persistence error); others succeed. -/
def c6EnvFail : WorkerEnv := ⟨9, 100, fun _ => true, fun _ _ _ => true, fun i => !(i == 1)⟩

def c6EnvOk : WorkerEnv := ⟨9, 110, fun _ => true, fun _ _ _ => true, fun _ => true⟩

def c6Scrape : ScrapeReq → List Candidate := fun _ => []

def w10A : Alert := ⟨3, 7, 5, 10, 1080, 1200, none, true, 10, true, some 50⟩

def w10Db : DB := ⟨[w10A], [⟨5, 99, "Le Garden"⟩], []⟩

def w10U : AlertUpdate := ⟨some 20, none, none, none, none⟩

/-!  Theorems.  -/

theorem pyRound2_exact (m : ℤ) : pyRound2 ((m : ℚ) / 100) = (m : ℚ) / 100 := by
  have h : ((m : ℚ) / 100) * 100 = (m : ℚ) := div_mul_cancel₀ _ (by norm_num)
  unfold pyRound2 roundHalfEven
  rw [h, Int.floor_intCast]
  norm_num

/-- C3: every upstream failure of one fetch — HTTP-level error (timeout,
non-200), undecodable or non-object body, or a parsing exception from
unexpected field types — is caught and mapped to the empty slot list;
`get_available_slots` is a total function, so it never raises to its
caller, and a failure is indistinguishable from an empty fetch. -/
theorem fetch_failure_yields_empty (date : String) (io : Option Bool) (o : FetchOutcome)
    (h : upstreamFailure date io o = true) :
    get_available_slots date io o = [] := by
  cases o with
  | httpError => rfl
  | badJson => rfl
  | ok body =>
    cases body with
    | jobj df =>
      simp only [get_available_slots]
      cases hp : parsePlannings date io (.jobj df) with
      | error e => rfl
      | ok l =>
        exfalso
        simp only [upstreamFailure] at h
        rw [hp] at h
        exact Bool.false_ne_true h
    | null => rfl
    | jbool b => rfl
    | jint n => rfl
    | jstr s => rfl
    | jarr xs => rfl

theorem fetch_failure_yields_empty_witness :
    upstreamFailure "2025-01-01" none .httpError = true ∧
    get_available_slots "2025-01-01" none .httpError = [] :=
  ⟨rfl, fetch_failure_yields_empty "2025-01-01" none .httpError rfl⟩

/-- C9: for a surviving (bookable) price option with integer
`pricePerParticipant`, `participantCount` and `duration` fields, the
emitted slot carries per-person price = cents / 100, total price =
per-person × participant count (the `round(_, 2)` is exact on these
values), and duration in minutes = seconds floor-divided by 60 (Python
`// 60`). -/
theorem price_and_duration_computation (date : String) (pgf sf pf : List (String × JVal))
    (p c d : Int)
    (hb : truthy (jget pf "bookable") = true)
    (hp : jget pf "pricePerParticipant" = some (.jint p))
    (hc : jget pf "participantCount" = some (.jint c))
    (hd : jget pf "duration" = some (.jint d)) :
    ∃ s : ScrapedSlot, processPrice date pgf sf (.jobj pf) = .ok [s] ∧
      s.price_per_person = (p : ℚ) / 100 ∧
      s.price_total = ((p : ℚ) / 100) * (c : ℚ) ∧
      s.duration_minutes = Int.fdiv d 60 := by
  have e0 : ((p : ℚ) / 100) * (c : ℚ) = (((p * c : ℤ) : ℚ)) / 100 := by
    push_cast
    ring
  simp only [processPrice, hb, hp, hc, hd, Option.getD_some, asNum, if_true]
  refine ⟨_, rfl, ?_, ?_, rfl⟩
  · exact pyRound2_exact p
  · rw [e0, pyRound2_exact (p * c), ← e0]

theorem price_and_duration_computation_witness :
    ∃ s : ScrapedSlot,
      processPrice "2025-01-01" [] []
        (.jobj [("bookable", .jbool true), ("pricePerParticipant", .jint 1500),
                ("participantCount", .jint 4), ("duration", .jint 5400)]) = .ok [s] ∧
      s.price_per_person = ((1500 : ℤ) : ℚ) / 100 ∧
      s.price_total = (((1500 : ℤ) : ℚ) / 100) * ((4 : ℤ) : ℚ) ∧
      s.duration_minutes = Int.fdiv 5400 60 :=
  price_and_duration_computation "2025-01-01" [] []
    [("bookable", .jbool true), ("pricePerParticipant", .jint 1500),
     ("participantCount", .jint 4), ("duration", .jint 5400)]
    1500 4 5400 rfl rfl rfl rfl

theorem exceptJoin_mem {α β : Type} {f : α → Except Unit (List β)} :
    ∀ {xs : List α} {l : List β} {s : β}, exceptJoin f xs = .ok l → s ∈ l →
      ∃ x ∈ xs, ∃ lx, f x = .ok lx ∧ s ∈ lx := by
  intro xs
  induction xs with
  | nil =>
    intro l s h hs
    simp only [exceptJoin, Except.ok.injEq] at h
    subst h
    simp at hs
  | cons x rest ih =>
    intro l s h hs
    simp only [exceptJoin] at h
    cases hfx : f x with
    | error e => rw [hfx] at h; simp at h
    | ok lx =>
      rw [hfx] at h
      cases hrest : exceptJoin f rest with
      | error e => rw [hrest] at h; simp at h
      | ok ls =>
        rw [hrest] at h
        simp only [Except.ok.injEq] at h
        subst h
        rcases List.mem_append.mp hs with h1 | h2
        · exact ⟨x, List.mem_cons_self x rest, lx, hfx, h1⟩
        · obtain ⟨y, hy, ly, hfy, hsy⟩ := ih hrest h2
          exact ⟨y, List.mem_cons_of_mem x hy, ly, hfy, hsy⟩

theorem processSlot_mem {date : String} {pgf : List (String × JVal)} {v : JVal}
    {l : List ScrapedSlot} {s : ScrapedSlot}
    (h : processSlot date pgf v = .ok l) (hs : s ∈ l) :
    ∃ sf, v = .jobj sf ∧
      ∃ prices, asIter ((jget sf "prices").getD (.jarr [])) = .ok prices ∧
        ∃ pr ∈ prices, ∃ lx, processPrice date pgf sf pr = .ok lx ∧ s ∈ lx := by
  cases v with
  | jobj sf =>
    simp only [processSlot] at h
    cases hit : asIter ((jget sf "prices").getD (.jarr [])) with
    | error e => rw [hit] at h; simp at h
    | ok prices =>
      rw [hit] at h
      exact ⟨sf, rfl, prices, hit, exceptJoin_mem h hs⟩
  | null => simp only [processSlot, Except.ok.injEq] at h; subst h; simp at hs
  | jbool b => simp only [processSlot, Except.ok.injEq] at h; subst h; simp at hs
  | jint n => simp only [processSlot, Except.ok.injEq] at h; subst h; simp at hs
  | jstr t => simp only [processSlot, Except.ok.injEq] at h; subst h; simp at hs
  | jarr xs => simp only [processSlot, Except.ok.injEq] at h; subst h; simp at hs

theorem processActivity_mem {date : String} {pgf : List (String × JVal)} {v : JVal}
    {l : List ScrapedSlot} {s : ScrapedSlot}
    (h : processActivity date pgf v = .ok l) (hs : s ∈ l) :
    ∃ af, v = .jobj af ∧ jget af "id" = some (.jstr PADEL_ACTIVITY_ID) ∧
      ∃ slots, asIter ((jget af "slots").getD (.jarr [])) = .ok slots ∧
        ∃ sl ∈ slots, ∃ lx, processSlot date pgf sl = .ok lx ∧ s ∈ lx := by
  cases v with
  | jobj af =>
    simp only [processActivity] at h
    split at h
    · rename_i t hid
      split at h
      · rename_i ht
        subst ht
        cases hit : asIter ((jget af "slots").getD (.jarr [])) with
        | error e => rw [hit] at h; simp at h
        | ok slots =>
          rw [hit] at h
          exact ⟨af, rfl, hid, slots, hit, exceptJoin_mem h hs⟩
      · simp only [Except.ok.injEq] at h; subst h; simp at hs
    · simp only [Except.ok.injEq] at h; subst h; simp at hs
  | null => simp only [processActivity, Except.ok.injEq] at h; subst h; simp at hs
  | jbool b => simp only [processActivity, Except.ok.injEq] at h; subst h; simp at hs
  | jint n => simp only [processActivity, Except.ok.injEq] at h; subst h; simp at hs
  | jstr t => simp only [processActivity, Except.ok.injEq] at h; subst h; simp at hs
  | jarr xs => simp only [processActivity, Except.ok.injEq] at h; subst h; simp at hs

theorem processPlayground_mem {date : String} {io : Option Bool} {v : JVal}
    {l : List ScrapedSlot} {s : ScrapedSlot}
    (h : processPlayground date io v = .ok l) (hs : s ∈ l) :
    ∃ pgf, v = .jobj pgf ∧
      ∃ acts, asIter ((jget pgf "activities").getD (.jarr [])) = .ok acts ∧
        ∃ act ∈ acts, ∃ lx, processActivity date pgf act = .ok lx ∧ s ∈ lx := by
  cases v with
  | jobj pgf =>
    simp only [processPlayground] at h
    by_cases h1 : io = some true ∧ truthy (jget pgf "indoor") = false
    · rw [if_pos h1] at h
      simp only [Except.ok.injEq] at h; subst h; simp at hs
    · rw [if_neg h1] at h
      by_cases h2 : io = some false ∧ truthy (jget pgf "indoor") = true
      · rw [if_pos h2] at h
        simp only [Except.ok.injEq] at h; subst h; simp at hs
      · rw [if_neg h2] at h
        cases hit : asIter ((jget pgf "activities").getD (.jarr [])) with
        | error e => rw [hit] at h; simp at h
        | ok acts =>
          rw [hit] at h
          exact ⟨pgf, rfl, acts, hit, exceptJoin_mem h hs⟩
  | null => simp only [processPlayground, Except.ok.injEq] at h; subst h; simp at hs
  | jbool b => simp only [processPlayground, Except.ok.injEq] at h; subst h; simp at hs
  | jint n => simp only [processPlayground, Except.ok.injEq] at h; subst h; simp at hs
  | jstr t => simp only [processPlayground, Except.ok.injEq] at h; subst h; simp at hs
  | jarr xs => simp only [processPlayground, Except.ok.injEq] at h; subst h; simp at hs

theorem processPrice_mem {date : String} {pgf sf : List (String × JVal)} {pr : JVal}
    {lx : List ScrapedSlot} {s : ScrapedSlot}
    (h : processPrice date pgf sf pr = .ok lx) (hs : s ∈ lx) :
    ∃ pf, pr = .jobj pf ∧ truthy (jget pf "bookable") = true := by
  cases pr with
  | jobj pf =>
    cases hb : truthy (jget pf "bookable") with
    | true => exact ⟨pf, rfl, hb⟩
    | false =>
      exfalso
      simp only [processPrice, hb, Bool.false_eq_true, if_false, Except.ok.injEq] at h
      subst h
      simp at hs
  | null => simp only [processPrice, Except.ok.injEq] at h; subst h; simp at hs
  | jbool b => simp only [processPrice, Except.ok.injEq] at h; subst h; simp at hs
  | jint n => simp only [processPrice, Except.ok.injEq] at h; subst h; simp at hs
  | jstr t => simp only [processPrice, Except.ok.injEq] at h; subst h; simp at hs
  | jarr xs => simp only [processPrice, Except.ok.injEq] at h; subst h; simp at hs

/-- C4: a price option whose `bookable` flag is falsy (false or absent)
contributes nothing to the fetcher's output, and every slot the fetcher
emits originates from a price option, at its proper nesting place in the
response, whose `bookable` flag is truthy. -/
theorem bookable_gate :
    (∀ (date : String) (pgf sf pf : List (String × JVal)),
        truthy (jget pf "bookable") = false →
        processPrice date pgf sf (.jobj pf) = .ok []) ∧
    (∀ (date : String) (io : Option Bool) (body : JVal) (s : ScrapedSlot),
        s ∈ get_available_slots date io (.ok body) →
        ∃ pgf sf pf lx, PriceOptionIn body pgf sf pf ∧
          truthy (jget pf "bookable") = true ∧
          processPrice date pgf sf (.jobj pf) = .ok lx ∧ s ∈ lx) := by
  constructor
  · intro date pgf sf pf hb
    simp [processPrice, hb]
  · intro date io body s hs
    simp only [get_available_slots] at hs
    cases hp : parsePlannings date io body with
    | error e => rw [hp] at hs; simp at hs
    | ok slots =>
      rw [hp] at hs
      cases body with
      | jobj df =>
        simp only [parsePlannings] at hp
        cases hit : asIter ((jget df "hydra:member").getD (.jarr [])) with
        | error e => rw [hit] at hp; simp at hp
        | ok members =>
          rw [hit] at hp
          obtain ⟨m, hm, lm, hplay, hsm⟩ := exceptJoin_mem hp hs
          obtain ⟨pgf, rfl, acts, hacts, act, hactmem, la, hacteq, hsa⟩ :=
            processPlayground_mem hplay hsm
          obtain ⟨af, rfl, hid, slots2, hslots, sl, hslmem, ls2, hsleq, hss⟩ :=
            processActivity_mem hacteq hsa
          obtain ⟨sf, rfl, prices, hprices, pr, hprmem, lx, hpx, hsx⟩ :=
            processSlot_mem hsleq hss
          obtain ⟨pf, rfl, hbk⟩ := processPrice_mem hpx hsx
          refine ⟨pgf, sf, pf, lx, ?_, hbk, hpx, hsx⟩
          unfold PriceOptionIn
          exact ⟨df, rfl, members, hit, hm, acts, hacts, af, hactmem, hid,
                 slots2, hslots, hslmem, prices, hprices, hprmem⟩
      | null => simp only [parsePlannings, Except.ok.injEq] at hp; subst hp; simp at hs
      | jbool b => simp only [parsePlannings, Except.ok.injEq] at hp; subst hp; simp at hs
      | jint n => simp only [parsePlannings, Except.ok.injEq] at hp; subst hp; simp at hs
      | jstr t => simp only [parsePlannings, Except.ok.injEq] at hp; subst hp; simp at hs
      | jarr xs => simp only [parsePlannings, Except.ok.injEq] at hp; subst hp; simp at hs

theorem bookable_gate_witness :
    (processPrice "2025-01-01" [] [] (.jobj [("bookable", .jbool false)]) = .ok []) ∧
    (∃ pgf sf pf lx, PriceOptionIn wBody4 pgf sf pf ∧
      truthy (jget pf "bookable") = true ∧
      processPrice "2025-01-01" pgf sf (.jobj pf) = .ok lx ∧ wSlot4 ∈ lx) := by
  constructor
  · exact bookable_gate.1 "2025-01-01" [] [] [("bookable", .jbool false)] rfl
  · refine bookable_gate.2 "2025-01-01" none wBody4 wSlot4 ?_
    have h : get_available_slots "2025-01-01" none (.ok wBody4) = [wSlot4] := by rfl
    rw [h]
    exact List.mem_singleton_self _

/-!  Worker lemmas.  -/

theorem existsTuple_append (l₁ l₂ : List DSlot) (aid : Nat) (k : Nat × Int × Nat) :
    existsTuple (l₁ ++ l₂) aid k = (existsTuple l₁ aid k || existsTuple l₂ aid k) := by
  simp [existsTuple, List.any_append]

theorem existsTuple_mk (env : WorkerEnv) (a : Alert) (club : Club) (b : Bool) (c : Candidate) :
    existsTuple [mkDetected env a club b c] a.id (ckey c) = true := by
  simp [existsTuple, mkDetected, ckey]

theorem detectLoop_attempts_baseline (env : WorkerEnv) (a : Alert) (club : Club) :
    ∀ (cs : List Candidate) (acc : List DSlot),
      (detectLoop env a club true cs acc).attempts = 0 := by
  intro cs
  induction cs with
  | nil => intro acc; rfl
  | cons c rest ih =>
    intro acc
    by_cases h : existsTuple acc a.id (ckey c) = true
    · simp [detectLoop, h, ih]
    · have h' : existsTuple acc a.id (ckey c) = false := by
        revert h; cases existsTuple acc a.id (ckey c) <;> simp
      simp [detectLoop, h', ih, attemptCount]

theorem detectLoop_slots_extend (env : WorkerEnv) (a : Alert) (club : Club) (b : Bool) :
    ∀ (cs : List Candidate) (acc : List DSlot),
      ∃ extra, (detectLoop env a club b cs acc).slots = acc ++ extra := by
  intro cs
  induction cs with
  | nil => intro acc; exact ⟨[], by simp [detectLoop]⟩
  | cons c rest ih =>
    intro acc
    by_cases h : existsTuple acc a.id (ckey c) = true
    · simpa [detectLoop, h] using ih acc
    · have h' : existsTuple acc a.id (ckey c) = false := by
        revert h; cases existsTuple acc a.id (ckey c) <;> simp
      obtain ⟨extra, hx⟩ := ih (acc ++ [mkDetected env a club b c])
      exact ⟨[mkDetected env a club b c] ++ extra, by simp [detectLoop, h', hx]⟩

theorem detectLoop_covers (env : WorkerEnv) (a : Alert) (club : Club) (b : Bool) :
    ∀ (cs : List Candidate) (acc : List DSlot) (c : Candidate), c ∈ cs →
      existsTuple (detectLoop env a club b cs acc).slots a.id (ckey c) = true := by
  intro cs
  induction cs with
  | nil => intro acc c hc; simp at hc
  | cons c' rest ih =>
    intro acc c hc
    by_cases h : existsTuple acc a.id (ckey c') = true
    · rcases List.mem_cons.mp hc with rfl | hr
      · obtain ⟨extra, hx⟩ := detectLoop_slots_extend env a club b rest acc
        simp [detectLoop, h, hx, existsTuple_append]
      · simp only [detectLoop, h, if_true]
        exact ih acc c hr
    · have h' : existsTuple acc a.id (ckey c') = false := by
        revert h; cases existsTuple acc a.id (ckey c') <;> simp
      rcases List.mem_cons.mp hc with rfl | hr
      · obtain ⟨extra, hx⟩ := detectLoop_slots_extend env a club b rest
          (acc ++ [mkDetected env a club b c])
        simp only [detectLoop, h', Bool.false_eq_true, if_false]
        rw [hx, existsTuple_append, existsTuple_append, existsTuple_mk]
        simp
      · simp only [detectLoop, h', Bool.false_eq_true, if_false]
        exact ih (acc ++ [mkDetected env a club b c']) c hr

theorem detectLoop_all_recorded (env : WorkerEnv) (a : Alert) (club : Club) (b : Bool) :
    ∀ (cs : List Candidate) (acc : List DSlot),
      (∀ c ∈ cs, existsTuple acc a.id (ckey c) = true) →
      detectLoop env a club b cs acc = ⟨acc, 0, 0⟩ := by
  intro cs
  induction cs with
  | nil => intro acc _; rfl
  | cons c rest ih =>
    intro acc hall
    have hc : existsTuple acc a.id (ckey c) = true := hall c (List.mem_cons_self c rest)
    simp only [detectLoop, hc, if_true]
    exact ih acc fun c' hc' => hall c' (List.mem_cons_of_mem c hc')

theorem detectLoop_all_new (env : WorkerEnv) (a : Alert) (club : Club) (b : Bool) :
    ∀ (cs : List Candidate) (acc : List DSlot),
      (∀ c ∈ cs, existsTuple acc a.id (ckey c) = false) →
      (cs.map ckey).Nodup →
      (detectLoop env a club b cs acc).slots = acc ++ cs.map (mkDetected env a club b) ∧
      (detectLoop env a club b cs acc).newCount = cs.length := by
  intro cs
  induction cs with
  | nil => intro acc _ _; exact ⟨by simp [detectLoop], rfl⟩
  | cons c rest ih =>
    intro acc hnew hnd
    have hc : existsTuple acc a.id (ckey c) = false := hnew c (List.mem_cons_self c rest)
    have hknotin : ckey c ∉ rest.map ckey := by
      simp only [List.nodup_cons, List.map_cons] at hnd
      exact hnd.1
    have hnd' : (rest.map ckey).Nodup := by
      simp only [List.nodup_cons, List.map_cons] at hnd
      exact hnd.2
    have hnew' : ∀ c' ∈ rest, existsTuple (acc ++ [mkDetected env a club b c]) a.id (ckey c') = false := by
      intro c' hc'
      rw [existsTuple_append, hnew c' (List.mem_cons_of_mem c hc'), Bool.false_or]
      have hne : ckey c ≠ ckey c' := by
        intro he
        exact hknotin (he ▸ List.mem_map_of_mem ckey hc')
      simp only [existsTuple, List.any_cons, List.any_nil, Bool.or_false,
        decide_eq_true_eq, mkDetected]
      simp only [decide_eq_false_iff_not]
      rintro ⟨-, h1, h2, h3⟩
      exact hne (by simp [ckey, h1, h2, h3])
    obtain ⟨hsl, hcnt⟩ := ih (acc ++ [mkDetected env a club b c]) hnew' hnd'
    constructor
    · simp only [detectLoop, hc, Bool.false_eq_true, if_false, hsl, List.map_cons,
        List.append_assoc, List.singleton_append]
    · simp only [detectLoop, hc, Bool.false_eq_true, if_false, hcnt, List.length_cons]

theorem find_set {l : List Alert} {a' : Alert} {i : Nat} (hi : a'.id = i)
    (hx : ∃ x ∈ l, x.id = i) :
    (l.map fun x => if x.id == a'.id then a' else x).find? (fun x => x.id == i) = some a' := by
  induction l with
  | nil => obtain ⟨x, hx0, _⟩ := hx; simp at hx0
  | cons y rest ih =>
    by_cases hy : y.id = a'.id
    · have hb : (y.id == a'.id) = true := beq_iff_eq.mpr hy
      have hp : (a'.id == i) = true := beq_iff_eq.mpr hi
      simp only [List.map_cons, hb, if_true]
      exact List.find?_cons_of_pos _ hp
    · have hb : (y.id == a'.id) = false := by simp [hy]
      have hyi : ¬ ((y.id == i) = true) := by
        simp only [beq_iff_eq]
        rw [← hi]
        exact hy
      simp only [List.map_cons, hb, Bool.false_eq_true, if_false]
      rw [List.find?_cons_of_neg]
      · apply ih
        obtain ⟨x, hx0, hxid⟩ := hx
        rcases List.mem_cons.mp hx0 with rfl | hxr
        · exact absurd (hxid.trans hi.symm) hy
        · exact ⟨x, hxr, hxid⟩
      · exact hyi

/-- C1: scanning an alert whose baseline flag is still false persists one
DetectedSlot per genuinely new candidate (all N of them, for pairwise
distinct new tuples), makes zero notification attempts, and afterwards
the alert's baseline flag is true and its last-checked stamp set —
whatever the number of candidates, including zero. -/
theorem baseline_scan_silent (env : WorkerEnv) (scrape : ScrapeReq → List Candidate)
    (db : DB) (alertId : Nat) (alert : Alert) (club : Club)
    (hfind : findAlert db alertId = some alert)
    (hactive : alert.is_active = true)
    (hdate : ¬ alert.target_date < env.today)
    (hclub : findClub db alert.club_id = some club)
    (hbase : alert.baseline_scraped = false)
    (hcommit : env.commitOk alertId = true)
    (hnew : ∀ c ∈ scrape (scrapeArgs club alert), existsTuple db.slots alert.id (ckey c) = false)
    (hnd : ((scrape (scrapeArgs club alert)).map ckey).Nodup) :
    ∃ db', process_alert env scrape db alertId =
        .ok (db', (scrape (scrapeArgs club alert)).length, 0) ∧
      db'.slots = db.slots ++ (scrape (scrapeArgs club alert)).map (mkDetected env alert club true) ∧
      findAlert db' alertId =
        some { alert with baseline_scraped := true, last_checked_at := some env.now } := by
  have hfind' : db.alerts.find? (fun a => a.id == alertId) = some alert := hfind
  have hid : alert.id = alertId := by
    have hpa := List.find?_some hfind'
    simpa [beq_iff_eq] using hpa
  obtain ⟨hsl, hcnt⟩ := detectLoop_all_new env alert club true
    (scrape (scrapeArgs club alert)) db.slots hnew hnd
  have hatt := detectLoop_attempts_baseline env alert club
    (scrape (scrapeArgs club alert)) db.slots
  refine ⟨{ setAlert db { alert with baseline_scraped := true, last_checked_at := some env.now } with
            slots := (detectLoop env alert club true (scrape (scrapeArgs club alert)) db.slots).slots },
          ?_, ?_, ?_⟩
  · simp only [process_alert, hfind, hactive, Bool.not_true, Bool.false_eq_true, if_false,
      hdate, hclub, hcommit, if_true, hbase, Bool.not_false, hcnt, hatt]
  · exact hsl
  · simp only [findAlert, setAlert]
    have hid2 : ({ alert with baseline_scraped := true, last_checked_at := some env.now } : Alert).id = alertId := hid
    exact find_set hid2 ⟨alert, List.mem_of_find?_eq_some hfind', hid⟩

theorem baseline_scan_silent_witness :
    ∃ db', process_alert w1Env w1Scrape w1Db 1 =
        .ok (db', (w1Scrape (scrapeArgs w1Club w1Alert)).length, 0) ∧
      db'.slots = w1Db.slots ++ (w1Scrape (scrapeArgs w1Club w1Alert)).map (mkDetected w1Env w1Alert w1Club true) ∧
      findAlert db' 1 = some { w1Alert with baseline_scraped := true, last_checked_at := some w1Env.now } :=
  baseline_scan_silent w1Env w1Scrape w1Db 1 w1Alert w1Club rfl rfl (by decide) rfl rfl rfl
    (fun _ _ => rfl) (by decide)

theorem scan_all_recorded (env : WorkerEnv) (scrape : ScrapeReq → List Candidate)
    (db : DB) (alertId : Nat) (alert : Alert) (club : Club)
    (hfind : findAlert db alertId = some alert)
    (hactive : alert.is_active = true)
    (hdate : ¬ alert.target_date < env.today)
    (hclub : findClub db alert.club_id = some club)
    (hcommit : env.commitOk alertId = true)
    (hrec : ∀ c ∈ scrape (scrapeArgs club alert), existsTuple db.slots alert.id (ckey c) = true) :
    ∃ db₂, process_alert env scrape db alertId = .ok (db₂, 0, 0) ∧ db₂.slots = db.slots := by
  have hall := detectLoop_all_recorded env alert club (!alert.baseline_scraped)
    (scrape (scrapeArgs club alert)) db.slots hrec
  refine ⟨{ setAlert db { alert with
              baseline_scraped := if !alert.baseline_scraped then true else alert.baseline_scraped,
              last_checked_at := some env.now } with
            slots := db.slots }, ?_, ?_⟩
  · simp only [process_alert, hfind, hactive, Bool.not_true, Bool.false_eq_true, if_false,
      hdate, hclub, hcommit, if_true, hall]
  · rfl

theorem scan_postconditions (env : WorkerEnv) (scrape : ScrapeReq → List Candidate)
    (db : DB) (alertId : Nat) (alert : Alert) (club : Club)
    (hfind : findAlert db alertId = some alert)
    (hactive : alert.is_active = true)
    (hdate : ¬ alert.target_date < env.today)
    (hclub : findClub db alert.club_id = some club)
    (hcommit : env.commitOk alertId = true) :
    ∀ db' n a, process_alert env scrape db alertId = .ok (db', n, a) →
      db'.clubs = db.clubs ∧
      findAlert db' alertId = some { alert with
        baseline_scraped := if !alert.baseline_scraped then true else alert.baseline_scraped,
        last_checked_at := some env.now } ∧
      ∀ c ∈ scrape (scrapeArgs club alert), existsTuple db'.slots alert.id (ckey c) = true := by
  have hfind' : db.alerts.find? (fun a => a.id == alertId) = some alert := hfind
  have hid : alert.id = alertId := by
    have hpa := List.find?_some hfind'
    simpa [beq_iff_eq] using hpa
  intro db' n a h1
  have hrun : process_alert env scrape db alertId =
      .ok ({ setAlert db { alert with
               baseline_scraped := if !alert.baseline_scraped then true else alert.baseline_scraped,
               last_checked_at := some env.now } with
             slots := (detectLoop env alert club (!alert.baseline_scraped)
               (scrape (scrapeArgs club alert)) db.slots).slots },
           (detectLoop env alert club (!alert.baseline_scraped)
               (scrape (scrapeArgs club alert)) db.slots).newCount,
           (detectLoop env alert club (!alert.baseline_scraped)
               (scrape (scrapeArgs club alert)) db.slots).attempts) := by
    simp only [process_alert, hfind, hactive, Bool.not_true, Bool.false_eq_true, if_false,
      hdate, hclub, hcommit, if_true]
  rw [hrun] at h1
  simp only [Except.ok.injEq, Prod.mk.injEq] at h1
  obtain ⟨hdb', -⟩ := h1
  subst hdb'
  refine ⟨rfl, ?_, ?_⟩
  · simp only [findAlert, setAlert]
    have hid2 : ({ alert with
        baseline_scraped := if !alert.baseline_scraped then true else alert.baseline_scraped,
        last_checked_at := some env.now } : Alert).id = alertId := hid
    exact find_set hid2 ⟨alert, List.mem_of_find?_eq_some hfind', hid⟩
  · intro c hc
    exact detectLoop_covers env alert club (!alert.baseline_scraped)
      (scrape (scrapeArgs club alert)) db.slots c hc

/-- C2: after one scan has run, rescanning the alert with candidates
covering the same (court, date, start-time) tuples — in particular the
unchanged upstream response, or the same tuples at different prices or
durations — persists zero additional DetectedSlots and attempts zero
notifications: newness is decided solely by the (alert, court, date,
start-time) tuple. -/
theorem rescan_creates_nothing (env₁ env₂ : WorkerEnv) (scrape₁ scrape₂ : ScrapeReq → List Candidate)
    (db : DB) (alertId : Nat) (alert : Alert) (club : Club)
    (hfind : findAlert db alertId = some alert)
    (hactive : alert.is_active = true)
    (hdate₁ : ¬ alert.target_date < env₁.today)
    (hclub : findClub db alert.club_id = some club)
    (hcommit₁ : env₁.commitOk alertId = true)
    (hdate₂ : ¬ alert.target_date < env₂.today)
    (hcommit₂ : env₂.commitOk alertId = true)
    (hsame : ∀ c ∈ scrape₂ (scrapeArgs club alert),
        ckey c ∈ (scrape₁ (scrapeArgs club alert)).map ckey) :
    ∀ db₁ n₁ a₁, process_alert env₁ scrape₁ db alertId = .ok (db₁, n₁, a₁) →
      ∃ db₂, process_alert env₂ scrape₂ db₁ alertId = .ok (db₂, 0, 0) ∧ db₂.slots = db₁.slots := by
  intro db₁ n₁ a₁ h1
  obtain ⟨hclubs, hfind₁, hrec⟩ := scan_postconditions env₁ scrape₁ db alertId alert club
    hfind hactive hdate₁ hclub hcommit₁ db₁ n₁ a₁ h1
  refine scan_all_recorded env₂ scrape₂ db₁ alertId _ club hfind₁ hactive hdate₂ ?_ hcommit₂ ?_
  · show findClub db₁ alert.club_id = some club
    have hclub' : db.clubs.find? (fun c => c.id == alert.club_id) = some club := hclub
    show db₁.clubs.find? (fun c => c.id == alert.club_id) = some club
    rw [hclubs]
    exact hclub'
  · intro c hc
    obtain ⟨c₁, hc₁, hk⟩ := List.mem_map.mp (hsame c hc)
    have hcov := hrec c₁ hc₁
    rw [hk] at hcov
    exact hcov

theorem rescan_creates_nothing_witness :
    process_alert w2Env1 w2Scrape1 w2Db 1 = .ok (w2Db1, 1, 0) ∧
    ∃ db₂, process_alert w2Env2 w2Scrape2 w2Db1 1 = .ok (db₂, 0, 0) ∧ db₂.slots = w2Db1.slots :=
  ⟨rfl,
   rescan_creates_nothing w2Env1 w2Env2 w2Scrape1 w2Scrape2 w2Db 1 w2Alert w2Club
     rfl rfl (by decide) rfl rfl (by decide) rfl (by decide) w2Db1 1 0 rfl⟩

theorem runPassAux_processed (env : WorkerEnv) (scrape : ScrapeReq → List Candidate) :
    ∀ (l : List Alert) (db : DB) (acc : List Nat),
      (runPassAux env scrape l db acc).aborted = false →
      (runPassAux env scrape l db acc).processed =
        acc.reverse ++ (l.filter fun a => isDue env.now a).map (fun a => a.id) := by
  intro l
  induction l with
  | nil => intro db acc _; simp [runPassAux]
  | cons a rest ih =>
    intro db acc hab
    by_cases hdue : isDue env.now a = true
    · cases hpa : process_alert env scrape db a.id with
      | ok v =>
        obtain ⟨db', n, att⟩ := v
        have hstep : runPassAux env scrape (a :: rest) db acc =
            runPassAux env scrape rest db' (a.id :: acc) := by
          simp only [runPassAux, hdue, if_true, hpa]
        rw [hstep] at hab ⊢
        rw [ih db' (a.id :: acc) hab]
        simp [List.filter_cons, hdue, List.reverse_cons, List.append_assoc]
      | error e =>
        exfalso
        have : (runPassAux env scrape (a :: rest) db acc).aborted = true := by
          simp only [runPassAux, hdue, if_true, hpa]
        rw [hab] at this
        exact Bool.false_ne_true this
    · have hdue' : isDue env.now a = false := by
        revert hdue; cases isDue env.now a <;> simp
      have hstep : runPassAux env scrape (a :: rest) db acc =
          runPassAux env scrape rest db acc := by
        simp only [runPassAux, hdue', Bool.false_eq_true, if_false]
      rw [hstep] at hab ⊢
      rw [ih db acc hab]
      simp [List.filter_cons, hdue']

/-- C5: in a scheduler pass that completes without an exception, an
alert (with a unique id) is processed exactly when it is active and due:
a null last-checked timestamp is due immediately, and otherwise the
alert is due exactly when the elapsed minutes since last-checked are at
least its configured poll interval (the scheduler skips it when they are
strictly smaller). -/
theorem due_gating (env : WorkerEnv) (scrape : ScrapeReq → List Candidate) (db : DB) (a : Alert)
    (ha : a ∈ db.alerts)
    (hnd : (db.alerts.map fun x => x.id).Nodup)
    (hok : (runPass env scrape db).aborted = false) :
    a.id ∈ (runPass env scrape db).processed ↔
      (a.is_active = true ∧ isDue env.now a = true) := by
  have hp := runPassAux_processed env scrape (db.alerts.filter fun x => x.is_active) db [] hok
  rw [show (runPass env scrape db).processed =
      (runPassAux env scrape (db.alerts.filter fun x => x.is_active) db []).processed from rfl, hp]
  simp only [List.reverse_nil, List.nil_append]
  constructor
  · intro hmem
    obtain ⟨b, hb, hbid⟩ := List.mem_map.mp hmem
    have hb1 := List.mem_filter.mp hb
    have hb2 := List.mem_filter.mp hb1.1
    have hbeq : b = a := List.inj_on_of_nodup_map hnd hb2.1 ha hbid
    subst hbeq
    exact ⟨hb2.2, hb1.2⟩
  · rintro ⟨hact, hdue⟩
    exact List.mem_map.mpr ⟨a, List.mem_filter.mpr ⟨List.mem_filter.mpr ⟨ha, hact⟩, hdue⟩, rfl⟩

theorem due_gating_witness :
    (runPass w5Env w5Scrape w5Db).aborted = false ∧
    ((1 : Nat) ∈ (runPass w5Env w5Scrape w5Db).processed ↔
      (w5B1.is_active = true ∧ isDue w5Env.now w5B1 = true)) ∧
    ((2 : Nat) ∈ (runPass w5Env w5Scrape w5Db).processed ↔
      (w5B2.is_active = true ∧ isDue w5Env.now w5B2 = true)) := by
  have h1 : isDue w5Env.now w5B1 = false := by
    simp only [isDue, w5Env, w5B1]
    norm_num
  have h2 : isDue w5Env.now w5B2 = true := by
    simp only [isDue, w5Env, w5B2]
    norm_num
  have hpa : process_alert w5Env w5Scrape w5Db 2 = .ok
      ({ setAlert w5Db { w5B2 with baseline_scraped := true, last_checked_at := some 100 } with
         slots := ([] : List DSlot) }, 0, 0) := rfl
  have hfil : (w5Db.alerts.filter fun a => a.is_active) = [w5B1, w5B2] := rfl
  have hab : runPass w5Env w5Scrape w5Db =
      ⟨{ setAlert w5Db { w5B2 with baseline_scraped := true, last_checked_at := some 100 } with
         slots := ([] : List DSlot) }, [2], false⟩ := by
    show runPassAux w5Env w5Scrape (w5Db.alerts.filter fun a => a.is_active) w5Db [] = _
    rw [hfil]
    simp only [runPassAux, h1, h2, Bool.false_eq_true, if_false, if_true, hpa]
    rfl
  refine ⟨by rw [hab], ?_, ?_⟩
  · exact due_gating w5Env w5Scrape w5Db w5B1 (List.Mem.head _) (by decide) (by rw [hab])
  · exact due_gating w5Env w5Scrape w5Db w5B2 (List.Mem.tail _ (List.Mem.head _)) (by decide)
      (by rw [hab])

theorem process_alert_run (env : WorkerEnv) (scrape : ScrapeReq → List Candidate)
    (db : DB) (alertId : Nat) (alert : Alert) (club : Club)
    (hfind : findAlert db alertId = some alert)
    (hactive : alert.is_active = true)
    (hdate : ¬ alert.target_date < env.today)
    (hclub : findClub db alert.club_id = some club)
    (hcommit : env.commitOk alertId = true) :
    process_alert env scrape db alertId =
      .ok ({ setAlert db { alert with
               baseline_scraped := if !alert.baseline_scraped then true else alert.baseline_scraped,
               last_checked_at := some env.now } with
             slots := (detectLoop env alert club (!alert.baseline_scraped)
               (scrape (scrapeArgs club alert)) db.slots).slots },
           (detectLoop env alert club (!alert.baseline_scraped)
               (scrape (scrapeArgs club alert)) db.slots).newCount,
           (detectLoop env alert club (!alert.baseline_scraped)
               (scrape (scrapeArgs club alert)) db.slots).attempts) := by
  simp only [process_alert, hfind, hactive, Bool.not_true, Bool.false_eq_true, if_false,
    hdate, hclub, hcommit, if_true]

/-- C6 counterexample: two active alerts, both due (null last-checked),
in one pass; the first one's commit fails.  The pass aborts after the
first alert: the database is completely unchanged (so the second alert's
last-checked timestamp is still null and it is still due), only the
first alert was invoked, and the second — a remaining due alert of the
same pass — was not processed in that pass. -/
theorem pass_abort_counterexample :
    c6B.is_active = true ∧ isDue c6EnvFail.now c6B = true ∧ c6B ∈ c6Db.alerts ∧
    runPass c6EnvFail c6Scrape c6Db = ⟨c6Db, [1], true⟩ ∧
    (2 : Nat) ∉ (runPass c6EnvFail c6Scrape c6Db).processed := by
  have h : runPass c6EnvFail c6Scrape c6Db = ⟨c6Db, [1], true⟩ := rfl
  refine ⟨rfl, rfl, List.Mem.tail _ (List.Mem.head _), h, ?_⟩
  rw [h]
  decide

/-- C6 (amended): a persistence error while processing one alert aborts
that alert with the database — including its last-checked timestamp —
unchanged, and it also aborts the remainder of the pass: the remaining
due alerts are not processed within the same pass (the claim's
"continues with the remaining due alerts" does not hold).  The loop
itself survives: a later pass in which the commits succeed processes
both alerts. -/
theorem pass_abort_behavior (env env₂ : WorkerEnv) (scrape : ScrapeReq → List Candidate)
    (A B : Alert) (clubs : List Club) (slots0 : List DSlot) (clubA clubB : Club)
    (hAact : A.is_active = true) (hBact : B.is_active = true)
    (hne : A.id ≠ B.id)
    (hdueA : isDue env.now A = true)
    (hdateA : ¬ A.target_date < env.today)
    (hclubA : List.find? (fun c => c.id == A.club_id) clubs = some clubA)
    (hfailA : env.commitOk A.id = false)
    (hdueA₂ : isDue env₂.now A = true) (hdueB₂ : isDue env₂.now B = true)
    (hdateA₂ : ¬ A.target_date < env₂.today) (hdateB₂ : ¬ B.target_date < env₂.today)
    (hclubB : List.find? (fun c => c.id == B.club_id) clubs = some clubB)
    (hok₂ : ∀ i, env₂.commitOk i = true) :
    runPass env scrape ⟨[A, B], clubs, slots0⟩ = ⟨⟨[A, B], clubs, slots0⟩, [A.id], true⟩ ∧
    (runPass env₂ scrape ⟨[A, B], clubs, slots0⟩).processed = [A.id, B.id] ∧
    (runPass env₂ scrape ⟨[A, B], clubs, slots0⟩).aborted = false := by
  have hAA : (A.id == A.id) = true := beq_self_eq_true A.id
  have hBB : (B.id == B.id) = true := beq_self_eq_true B.id
  have hAB : (A.id == B.id) = false := beq_eq_false_iff_ne.mpr hne
  have hBA : (B.id == A.id) = false := beq_eq_false_iff_ne.mpr (Ne.symm hne)
  have hfilter : ((⟨[A, B], clubs, slots0⟩ : DB).alerts.filter fun a => a.is_active) = [A, B] := by
    simp [hAact, hBact]
  have hfindA : findAlert ⟨[A, B], clubs, slots0⟩ A.id = some A := by
    show List.find? (fun x => x.id == A.id) [A, B] = some A
    exact List.find?_cons_of_pos _ hAA
  have hclubA' : findClub ⟨[A, B], clubs, slots0⟩ A.club_id = some clubA := hclubA
  refine ⟨?_, ?_⟩
  · have hpaA : process_alert env scrape ⟨[A, B], clubs, slots0⟩ A.id = .error .dbError := by
      simp only [process_alert, hfindA, hAact, Bool.not_true, Bool.false_eq_true, if_false,
        hdateA, hclubA', hfailA, if_true]
    show runPassAux env scrape
      ((⟨[A, B], clubs, slots0⟩ : DB).alerts.filter fun a => a.is_active)
      ⟨[A, B], clubs, slots0⟩ [] = _
    rw [hfilter]
    simp only [runPassAux, hdueA, if_true, hpaA, List.reverse_cons, List.reverse_nil,
      List.nil_append]
  · have hrunA0 := process_alert_run env₂ scrape ⟨[A, B], clubs, slots0⟩ A.id A clubA
      hfindA hAact hdateA₂ hclubA' (hok₂ A.id)
    obtain ⟨dbA, hAUpack, hclubsA, n₁, att₁, hrunA⟩ :
        ∃ dbA, (∃ AU : Alert, AU.id = A.id ∧ dbA.alerts = [AU, B]) ∧ dbA.clubs = clubs ∧
          ∃ n att, process_alert env₂ scrape ⟨[A, B], clubs, slots0⟩ A.id = .ok (dbA, n, att) := by
      refine ⟨_, ⟨{ A with
          baseline_scraped := if !A.baseline_scraped then true else A.baseline_scraped,
          last_checked_at := some env₂.now }, rfl, ?_⟩, rfl, _, _, hrunA0⟩
      show (setAlert (⟨[A, B], clubs, slots0⟩ : DB) _).alerts = _
      simp only [setAlert, List.map_cons, List.map_nil, beq_self_eq_true, if_true, hBA,
        Bool.false_eq_true, if_false]
    obtain ⟨AU, hAUid, halerts⟩ := hAUpack
    have hfindB : findAlert dbA B.id = some B := by
      show List.find? (fun x => x.id == B.id) dbA.alerts = some B
      rw [halerts]
      rw [List.find?_cons_of_neg]
      · exact List.find?_cons_of_pos _ hBB
      · simp only [beq_iff_eq, hAUid]
        exact hne
    have hclubB₂ : findClub dbA B.club_id = some clubB := by
      show dbA.clubs.find? (fun c => c.id == B.club_id) = some clubB
      rw [hclubsA]
      exact hclubB
    obtain ⟨dbB, n₂, att₂, hrunB⟩ : ∃ dbB n att, process_alert env₂ scrape dbA B.id = .ok (dbB, n, att) :=
      ⟨_, _, _, process_alert_run env₂ scrape dbA B.id B clubB hfindB hBact hdateB₂ hclubB₂ (hok₂ B.id)⟩
    have hpass : runPass env₂ scrape ⟨[A, B], clubs, slots0⟩ = ⟨dbB, [A.id, B.id], false⟩ := by
      show runPassAux env₂ scrape
        ((⟨[A, B], clubs, slots0⟩ : DB).alerts.filter fun a => a.is_active)
        ⟨[A, B], clubs, slots0⟩ [] = _
      rw [hfilter]
      simp only [runPassAux, hdueA₂, hdueB₂, if_true, hrunA, hrunB, List.reverse_cons,
        List.reverse_nil, List.nil_append, List.singleton_append]
    rw [hpass]
    exact ⟨rfl, rfl⟩

theorem pass_abort_behavior_witness :
    (runPass c6EnvFail c6Scrape ⟨[c6A, c6B], [c6Club], []⟩ =
      ⟨⟨[c6A, c6B], [c6Club], []⟩, [c6A.id], true⟩ ∧
    (runPass c6EnvOk c6Scrape ⟨[c6A, c6B], [c6Club], []⟩).processed = [c6A.id, c6B.id] ∧
    (runPass c6EnvOk c6Scrape ⟨[c6A, c6B], [c6Club], []⟩).aborted = false) :=
  pass_abort_behavior c6EnvFail c6EnvOk c6Scrape c6A c6B [c6Club] [] c6Club c6Club
    rfl rfl (by decide) rfl (by decide) rfl rfl rfl rfl (by decide) (by decide) rfl
    (fun _ => rfl)

/-- C10: a PATCH whose body includes a new target date resets the
alert's baseline-established flag to false, so the next successful scan
of the edited alert is a silent baseline scan: whatever it records, it
makes zero notification attempts. -/
theorem update_date_resets_baseline (db : DB) (uid aid : Nat) (u : AlertUpdate) (d : Int) (a : Alert)
    (hu : u.target_date = some d)
    (hfind : find_user_alert db uid aid = some a) :
    ∃ db', update_alert db uid aid u = .ok db' ∧
      findAlert db' aid = some (applyUpdate a u) ∧
      (applyUpdate a u).baseline_scraped = false ∧
      (∀ env scrape db₂ n att, process_alert env scrape db' aid = .ok (db₂, n, att) → att = 0) := by
  have hfind' : db.alerts.find? (fun x => x.id == aid && x.user_id == uid) = some a := hfind
  have hpa := List.find?_some hfind'
  simp only [Bool.and_eq_true, beq_iff_eq] at hpa
  have hid : a.id = aid := hpa.1
  have hb : (applyUpdate a u).baseline_scraped = false := by
    simp [applyUpdate, hu]
  have hfound : findAlert (setAlert db (applyUpdate a u)) aid = some (applyUpdate a u) := by
    simp only [findAlert, setAlert]
    exact find_set (show (applyUpdate a u).id = aid from hid)
      ⟨a, List.mem_of_find?_eq_some hfind', hid⟩
  refine ⟨setAlert db (applyUpdate a u), ?_, hfound, hb, ?_⟩
  · simp only [update_alert, hfind]
  · intro env scrape db₂ n att h
    revert h
    simp only [process_alert, hfound]
    cases hact : (applyUpdate a u).is_active with
    | false =>
      intro h
      simp only [hact, Bool.not_false, if_true, Except.ok.injEq, Prod.mk.injEq] at h
      exact h.2.2.symm
    | true =>
      simp only [hact, Bool.not_true, Bool.false_eq_true, if_false]
      by_cases hdate : (applyUpdate a u).target_date < env.today
      · rw [if_pos hdate]
        cases hc : env.commitOk aid with
        | true =>
          simp only [if_true]
          intro h
          simp only [Except.ok.injEq, Prod.mk.injEq] at h
          exact h.2.2.symm
        | false =>
          simp only [Bool.false_eq_true, if_false]
          intro h
          simp at h
      · rw [if_neg hdate]
        cases hclub2 : findClub (setAlert db (applyUpdate a u)) (applyUpdate a u).club_id with
        | none => intro h; simp at h
        | some club =>
          cases hc : env.commitOk aid with
          | false =>
            simp only [Bool.false_eq_true, if_false]
            intro h
            simp at h
          | true =>
            simp only [if_true]
            intro h
            simp only [Except.ok.injEq, Prod.mk.injEq] at h
            rw [← h.2.2]
            have hbb : (!(applyUpdate a u).baseline_scraped) = true := by rw [hb]; rfl
            rw [hbb]
            exact detectLoop_attempts_baseline env (applyUpdate a u) club _ _

theorem update_date_resets_baseline_witness :
    ∃ db', update_alert w10Db 7 3 w10U = .ok db' ∧
      findAlert db' 3 = some (applyUpdate w10A w10U) ∧
      (applyUpdate w10A w10U).baseline_scraped = false ∧
      (∀ env scrape db₂ n att, process_alert env scrape db' 3 = .ok (db₂, n, att) → att = 0) :=
  update_date_resets_baseline w10Db 7 3 w10U 20 w10A rfl rfl

/-- C7 counterexample: with a subscription whose plan name is "gold" —
not a tier key — the creation-time lookup `PLAN_QUOTAS[plan]` raises
KeyError; it does not fall back to the "free" tier. -/
theorem unknown_plan_counterexample :
    List.lookup "gold" PLAN_QUOTAS = none ∧
    create_alert 0 (some "gold") 0 true ⟨5, 1, 1080, 1200, none⟩ = .error (.keyError "gold") :=
  ⟨rfl, rfl⟩

/-- C7 (amended): only a user with no subscription row falls back to the
"free" tier; a subscription with a plan name that is not a tier key
makes the creation-time quota lookup raise KeyError instead of falling
back. -/
theorem unknown_plan_behavior (today : Int) (n : Nat) (cl : Bool) (req : AlertCreateReq) :
    (∀ p, List.lookup p PLAN_QUOTAS = none →
      create_alert today (some p) n cl req = .error (.keyError p)) ∧
    create_alert today none n cl req = create_alert today (some "free") n cl req := by
  constructor
  · intro p hp
    simp only [create_alert, Option.getD_some, hp]
  · rfl

theorem unknown_plan_behavior_witness :
    (create_alert 0 (some "gold") 0 true ⟨5, 1, 1080, 1200, none⟩ = .error (.keyError "gold")) ∧
    create_alert 0 none 0 true ⟨5, 1, 1080, 1200, none⟩ =
      create_alert 0 (some "free") 0 true ⟨5, 1, 1080, 1200, none⟩ :=
  ⟨(unknown_plan_behavior 0 0 true ⟨5, 1, 1080, 1200, none⟩).1 "gold" rfl,
   (unknown_plan_behavior 0 0 true ⟨5, 1, 1080, 1200, none⟩).2⟩

/-- C8: on the free tier the admission checks behave as claimed — a
target date of today is rejected as too early and day 15 as too late —
but the admitted dates (day 1 and day 14) never yield an alert: after
all checks pass, the route reads `quota["check_interval"]`, a key the
quota dict does not define (its key is `"check_interval_minutes"`), so
creation raises KeyError instead of returning an alert stamped with the
tier's poll interval. -/
theorem free_tier_admission_keyerror :
    create_alert 0 (some "free") 0 true ⟨5, 0, 1080, 1200, none⟩ = .error .dateTooEarly ∧
    create_alert 0 (some "free") 0 true ⟨5, 15, 1080, 1200, none⟩ = .error .dateTooLate ∧
    create_alert 0 (some "free") 0 true ⟨5, 1, 1080, 1200, none⟩ =
      .error (.keyError "check_interval") ∧
    create_alert 0 (some "free") 0 true ⟨5, 14, 1080, 1200, none⟩ =
      .error (.keyError "check_interval") := by
  have hfree : List.lookup "free" PLAN_QUOTAS = some freeQuota := rfl
  have h1 : qget freeQuota "max_alerts" = .ok 2 := rfl
  have h2 : qget freeQuota "min_days_ahead" = .ok 1 := rfl
  have h3 : qget freeQuota "max_days_ahead" = .ok 14 := rfl
  have h4 : qget freeQuota "max_time_window_hours" = .ok 6 := rfl
  have h5 : qget freeQuota "check_interval" = .error (.keyError "check_interval") := rfl
  refine ⟨?_, ?_, ?_, ?_⟩
  · simp only [create_alert, Option.getD_some, hfree, h1, h2, h3, h4, h5]
    norm_num
  · simp only [create_alert, Option.getD_some, hfree, h1, h2, h3, h4, h5]
    norm_num
  · simp only [create_alert, Option.getD_some, hfree, h1, h2, h3, h4, h5]
    norm_num
  · simp only [create_alert, Option.getD_some, hfree, h1, h2, h3, h4, h5]
    norm_num
